import Mathlib

/-!
Verification of the execution-and-message-capture pipeline of the Lox
playground (src/unnamed/part_000 `LoxPlayground` / `runCode`,
src/unnamed/part_001 `LoxEditor`).

Modelling choices, each reflecting one line of the source:
* `MessageType` and `Message` embed the `enum MessageType` and `type Message`
  declarations; the TypeScript field `text?: string` becomes `Option String`.
* The external runtime `wasm.run(code, onPrint)` is opaque to the component;
  one call to it is summarised by a `RunBehavior`: the list of strings the
  runtime passed to the print callback, in call order, together with the value
  it threw, if any.  A thrown JavaScript value is classified exactly the way
  the `catch` block of `runCode` classifies it: `instanceof Error`
  (`Thrown.errorObj` carrying the `.message` field), `typeof === "string"`
  (`Thrown.str`), or anything else (`Thrown.other`, e.g. a number).
* `crypto.randomUUID()` is modelled as a fresh-id supply: the component state
  carries a counter `nextId`, and each call returns the current counter value
  and advances it.  This captures the guarantee the code relies on (each call
  yields a value never returned before).
* `new Date()` is modelled as a `clock : Nat → Nat` applied to the current
  tick of that same supply; no claim constrains the actual time values.
* React state: `LoxPlayground` holds `messages` (the session log) and `code`
  (the source buffer); `setMessages`/`setCode` become functional updates of a
  `PlaygroundState` record.
-/

namespace Lox

/-- `enum MessageType { Print, Error }` from src/unnamed/part_000. -/
inductive MessageType where
  | Print
  | Error
deriving DecidableEq, BEq, Repr

/-- `type Message = { id, type, text?, occurredAt }` from src/unnamed/part_000.
`text` is declared optional there, hence `Option String` here.  Ids are the
values of the fresh-id supply modelling `crypto.randomUUID()`. -/
structure Message where
  id : Nat
  type : MessageType
  text : Option String
  occurredAt : Nat
deriving DecidableEq, Repr

/-- Classification of a JavaScript thrown value, exactly as the `catch` block
of `runCode` distinguishes the three cases: `exception instanceof Error`
(with its `.message`), `typeof exception === "string"`, and everything else
(a number, an object without Error prototype, ...). -/
inductive Thrown where
  | errorObj (message : String)
  | str (s : String)
  | other
deriving DecidableEq, Repr

/-- Observable behavior of one call to the external `wasm.run(code, onPrint)`:
the strings passed to `onPrint`, in call order, before the call returned
(`thrown = none`) or threw the given value (`thrown = some e`). -/
structure RunBehavior where
  prints : List String
  thrown : Option Thrown
deriving DecidableEq, Repr

/-- One print-callback invocation (line 41 of src/unnamed/part_000):
`emittedMessages.push({id: crypto.randomUUID(), type: MessageType.Print,
text: message, occurredAt: new Date()})` at supply tick `c`. -/
def mkPrint (c : Nat) (clock : Nat → Nat) (s : String) : Message :=
  { id := c, type := MessageType.Print, text := some s, occurredAt := clock c }

/-- The `Print` messages pushed by the callback for the given print strings,
starting at supply tick `c`: one message per callback call, in call order. -/
def printMessages : List String → Nat → (Nat → Nat) → List Message
  | [], _, _ => []
  | s :: rest, c, clock => mkPrint c clock s :: printMessages rest (c + 1) clock

/-- The messages pushed by the `catch` block (lines 43-52 of
src/unnamed/part_000) for a thrown value classified as `e`, at supply tick
`c`.  The `instanceof Error` and `typeof === "string"` branches each push one
`Error` message; the final `else` branch only does `console.log(typeof
exception)` and pushes nothing. -/
def catchMessages (e : Thrown) (c : Nat) (clock : Nat → Nat) : List Message :=
  match e with
  | Thrown.errorObj m =>
      [{ id := c, type := MessageType.Error, text := some m, occurredAt := clock c }]
  | Thrown.str s =>
      [{ id := c, type := MessageType.Error, text := some s, occurredAt := clock c }]
  | Thrown.other => []

/-- Number of `crypto.randomUUID()` calls made by the `catch` block. -/
def thrownCount : Option Thrown → Nat
  | some (Thrown.errorObj _) => 1
  | some (Thrown.str _) => 1
  | some Thrown.other => 0
  | none => 0

/-- Total number of `crypto.randomUUID()` calls made during one `runCode`. -/
def uuidCalls (b : RunBehavior) : Nat :=
  b.prints.length + thrownCount b.thrown

/-- The local `emittedMessages` buffer of one `runCode` invocation whose
`wasm.run` call behaved as `b`, with the fresh-id supply at tick `c`: the
`Print` messages pushed by the callback, followed by whatever the `catch`
block pushed (nothing when the run did not throw). -/
def emittedMessages (b : RunBehavior) (c : Nat) (clock : Nat → Nat) : List Message :=
  printMessages b.prints c clock ++
    (match b.thrown with
     | none => []
     | some e => catchMessages e (c + b.prints.length) clock)

/-- The descriptive text the `catch` block extracts from a thrown value:
the `.message` field of an `Error` instance, a bare string verbatim, nothing
for any other shape. -/
def thrownText : Thrown → Option String
  | Thrown.errorObj m => some m
  | Thrown.str s => some s
  | Thrown.other => none

/-- The React state of `LoxPlayground`: the session log (`messages` state),
the source buffer (`code` state), and the tick of the fresh-id supply
modelling `crypto.randomUUID()`. -/
structure PlaygroundState where
  messages : List Message
  code : String
  nextId : Nat
deriving DecidableEq, Repr

/-- `runCode` (lines 37-55 of src/unnamed/part_000): run the current source
through the runtime, collect the local buffer, then
`setMessages([...messages, ...emittedMessages])`.  `runtime` gives the
external `wasm.run`'s behavior on each source text.  The `code` state is only
read, never written. -/
def runCode (runtime : String → RunBehavior) (clock : Nat → Nat)
    (s : PlaygroundState) : PlaygroundState :=
  let b := runtime s.code
  { s with
    messages := s.messages ++ emittedMessages b s.nextId clock
    nextId := s.nextId + uuidCalls b }

/-- One entry of the example catalog `examples.json`
(`{name: string, code: string}`), external data per the spec. -/
structure Example where
  name : String
  code : String
deriving DecidableEq, Repr

/-- The `onChange` handler of the example `select` element (line 61 of
src/unnamed/part_000): `setCode(examples.find((example) => example.name ===
event.target.value)?.code ?? "")`. -/
def selectExample (examples : List Example) (name : String)
    (s : PlaygroundState) : PlaygroundState :=
  { s with
    code := ((examples.find? (fun ex => ex.name == name)).map Example.code).getD "" }

/-- The editor `onChange` handler (line 71 of src/unnamed/part_000):
`(newCode) => setCode(newCode ?? "")`.  `LoxEditor`'s contract
(src/unnamed/part_001) delivers `string | undefined`, hence `Option String`. -/
def onEditorChange (newCode : Option String) (s : PlaygroundState) : PlaygroundState :=
  { s with code := newCode.getD "" }

/-- The initial component state (lines 34-35 of src/unnamed/part_000):
empty log, source buffer `examples[0].code`, fresh-id supply at tick 0.
`examples[0]` requires a non-empty catalog. -/
def initialState (examples : List Example) (hne : examples ≠ []) : PlaygroundState :=
  { messages := [], code := (examples.head hne).code, nextId := 0 }

/-- A user interaction that updates the component state: clicking Run,
picking an example in the drop-down, or editing the source. -/
inductive Event where
  | runClick
  | selectEx (name : String)
  | edit (newCode : Option String)
deriving DecidableEq, Repr

/-- State transition of `LoxPlayground` on one user interaction. -/
def step (examples : List Example) (runtime : String → RunBehavior)
    (clock : Nat → Nat) (s : PlaygroundState) (ev : Event) : PlaygroundState :=
  match ev with
  | Event.runClick => runCode runtime clock s
  | Event.selectEx name => selectExample examples name s
  | Event.edit newCode => onEditorChange newCode s

/-- The component state after a whole session: the initial state followed by
any sequence of user interactions. -/
def applySession (examples : List Example) (runtime : String → RunBehavior)
    (clock : Nat → Nat) (hne : examples ≠ []) (events : List Event) : PlaygroundState :=
  events.foldl (step examples runtime clock) (initialState examples hne)

/-- Number of `Error` messages in a list of messages. -/
def errorCount (l : List Message) : Nat :=
  l.countP (fun m => decide (m.type = MessageType.Error))

/-! ## Basic lemmas about one run's buffer -/

theorem printMessages_map_id (prints : List String) (c : Nat) (clock : Nat → Nat) :
    (printMessages prints c clock).map Message.id = List.range' c prints.length := by
  induction prints generalizing c with
  | nil => rfl
  | cons s rest ih =>
      simp [printMessages, mkPrint, ih, List.range'_succ]

theorem printMessages_map_kind_text (prints : List String) (c : Nat) (clock : Nat → Nat) :
    (printMessages prints c clock).map (fun m => (m.type, m.text))
      = prints.map (fun s => (MessageType.Print, some s)) := by
  induction prints generalizing c with
  | nil => rfl
  | cons s rest ih => simp [printMessages, mkPrint, ih]

theorem printMessages_length (prints : List String) (c : Nat) (clock : Nat → Nat) :
    (printMessages prints c clock).length = prints.length := by
  induction prints generalizing c with
  | nil => rfl
  | cons s rest ih => simp [printMessages, ih]

theorem errorCount_printMessages (prints : List String) (c : Nat) (clock : Nat → Nat) :
    errorCount (printMessages prints c clock) = 0 := by
  induction prints generalizing c with
  | nil => rfl
  | cons s rest ih =>
      have h := ih (c + 1)
      simp [printMessages, errorCount, mkPrint, List.countP_cons] at h ⊢
      exact h

theorem errorCount_append (l₁ l₂ : List Message) :
    errorCount (l₁ ++ l₂) = errorCount l₁ + errorCount l₂ :=
  List.countP_append _ _ _

theorem emittedMessages_none (b : RunBehavior) (c : Nat) (clock : Nat → Nat)
    (h : b.thrown = none) :
    emittedMessages b c clock = printMessages b.prints c clock := by
  simp [emittedMessages, h]

theorem emittedMessages_some (b : RunBehavior) (e : Thrown) (c : Nat) (clock : Nat → Nat)
    (h : b.thrown = some e) :
    emittedMessages b c clock
      = printMessages b.prints c clock ++ catchMessages e (c + b.prints.length) clock := by
  simp [emittedMessages, h]

theorem emittedMessages_map_id (b : RunBehavior) (c : Nat) (clock : Nat → Nat) :
    (emittedMessages b c clock).map Message.id = List.range' c (uuidCalls b) := by
  cases hb : b.thrown with
  | none =>
      rw [emittedMessages_none b c clock hb, printMessages_map_id]
      simp [uuidCalls, thrownCount, hb]
  | some e =>
      rw [emittedMessages_some b e c clock hb, List.map_append, printMessages_map_id]
      cases e with
      | errorObj m =>
          simp [catchMessages, uuidCalls, thrownCount, hb, List.range'_1_concat]
      | str s =>
          simp [catchMessages, uuidCalls, thrownCount, hb, List.range'_1_concat]
      | other =>
          simp [catchMessages, uuidCalls, thrownCount, hb]

theorem errorCount_emittedMessages_le_one (b : RunBehavior) (c : Nat) (clock : Nat → Nat) :
    errorCount (emittedMessages b c clock) ≤ 1 := by
  cases hb : b.thrown with
  | none =>
      rw [emittedMessages_none b c clock hb, errorCount_printMessages]
      exact Nat.zero_le 1
  | some e =>
      rw [emittedMessages_some b e c clock hb, errorCount_append,
        errorCount_printMessages]
      cases e <;> simp [catchMessages, errorCount, List.countP_cons]

/-! ## Session-level lemmas -/

/-- The ids currently stored in the session log. -/
def logIds (s : PlaygroundState) : List Nat :=
  s.messages.map Message.id

/-- The fresh-id supply invariant: ids in the log are pairwise distinct and
all below the supply's next tick. -/
def IdInvariant (s : PlaygroundState) : Prop :=
  (logIds s).Nodup ∧ ∀ i ∈ logIds s, i < s.nextId

theorem step_id_invariant (examples : List Example) (runtime : String → RunBehavior)
    (clock : Nat → Nat) (s : PlaygroundState) (ev : Event)
    (h : IdInvariant s) : IdInvariant (step examples runtime clock s ev) := by
  obtain ⟨hnd, hlt⟩ := h
  cases ev with
  | selectEx name => exact ⟨hnd, hlt⟩
  | edit newCode => exact ⟨hnd, hlt⟩
  | runClick =>
      constructor
      · show ((s.messages ++ _).map Message.id).Nodup
        rw [List.map_append, emittedMessages_map_id]
        refine List.Nodup.append hnd (List.nodup_range' _ _) ?_
        intro i hi hi'
        have h1 : i < s.nextId := hlt i hi
        have h2 : s.nextId ≤ i := (List.mem_range'_1.mp hi').1
        omega
      · intro i hi
        show i < s.nextId + uuidCalls (runtime s.code)
        have : i ∈ (s.messages ++ emittedMessages (runtime s.code) s.nextId clock).map
            Message.id := hi
        rw [List.map_append, List.mem_append] at this
        rcases this with h1 | h2
        · have := hlt i h1
          omega
        · rw [emittedMessages_map_id] at h2
          exact (List.mem_range'_1.mp h2).2

theorem foldl_id_invariant (examples : List Example) (runtime : String → RunBehavior)
    (clock : Nat → Nat) (events : List Event) (s : PlaygroundState)
    (h : IdInvariant s) :
    IdInvariant (events.foldl (step examples runtime clock) s) := by
  induction events generalizing s with
  | nil => exact h
  | cons ev rest ih =>
      exact ih _ (step_id_invariant examples runtime clock s ev h)

theorem text_isSome_of_mem_printMessages (prints : List String) (c : Nat)
    (clock : Nat → Nat) (m : Message) (hm : m ∈ printMessages prints c clock) :
    m.text.isSome = true := by
  induction prints generalizing c with
  | nil => simp [printMessages] at hm
  | cons s rest ih =>
      simp only [printMessages, List.mem_cons] at hm
      rcases hm with rfl | hm
      · rfl
      · exact ih _ hm

theorem text_isSome_of_mem_catchMessages (e : Thrown) (c : Nat) (clock : Nat → Nat)
    (m : Message) (hm : m ∈ catchMessages e c clock) : m.text.isSome = true := by
  cases e with
  | errorObj msg =>
      simp only [catchMessages, List.mem_singleton] at hm
      subst hm; rfl
  | str s =>
      simp only [catchMessages, List.mem_singleton] at hm
      subst hm; rfl
  | other => simp [catchMessages] at hm

/-! ## The claims -/

/-- Claim C1, as stated, is false on the code: when the runtime throws a
value that is neither an `Error` instance nor a bare string (here a run that
printed `"hi"` and then threw such an unrecognized value), the `else` branch
of `runCode` only calls `console.log` and pushes nothing, so the run's buffer
gains zero `Error` messages rather than the claimed one. -/
theorem c1_counterexample :
    errorCount (emittedMessages ⟨["hi"], some Thrown.other⟩ 0 (fun t => t)) = 0 ∧
    emittedMessages ⟨["hi"], some Thrown.other⟩ 0 (fun t => t)
      = [mkPrint 0 (fun t => t) "hi"] :=
  ⟨rfl, rfl⟩

/-- Claim C1 (amended): for every run in which the runtime raises a failure
that is neither a structured failure nor a bare string, the run's buffer
gains no `Error` message at all — the failure is dropped from the log
(reported only on the developer console), and the buffer holds exactly the
`Print` messages emitted before the failure. -/
theorem c1_other_failure_not_logged (b : RunBehavior) (c : Nat) (clock : Nat → Nat)
    (h : b.thrown = some Thrown.other) :
    emittedMessages b c clock = printMessages b.prints c clock ∧
    errorCount (emittedMessages b c clock) = 0 := by
  have he : emittedMessages b c clock = printMessages b.prints c clock := by
    rw [emittedMessages_some b Thrown.other c clock h]
    simp [catchMessages]
  exact ⟨he, by rw [he, errorCount_printMessages]⟩

/-- Witness for the amended claim C1 at a concrete run. -/
theorem c1_witness :
    emittedMessages ⟨["out"], some Thrown.other⟩ 0 (fun t => t)
        = printMessages ["out"] 0 (fun t => t) ∧
    errorCount (emittedMessages ⟨["out"], some Thrown.other⟩ 0 (fun t => t)) = 0 :=
  c1_other_failure_not_logged ⟨["out"], some Thrown.other⟩ 0 (fun t => t) rfl

/-- Claim C2, as stated, is false on the code: a run that throws an
unrecognized value after zero prints leaves an empty buffer, not a buffer of
zero `Print` messages followed by one `Error` message. -/
theorem c2_counterexample :
    ¬ ∃ m : Message,
        emittedMessages ⟨[], some Thrown.other⟩ 0 (fun t => t)
          = printMessages [] 0 (fun t => t) ++ [m] ∧
        m.type = MessageType.Error := by
  rintro ⟨m, hm, -⟩
  simp [emittedMessages, printMessages, catchMessages] at hm

/-- Claim C2 (amended): for every run in which the runtime raises a
structured or bare-string failure after emitting N print calls, the buffer
contains exactly the N `Print` messages (in call order, with the printed
texts) followed by exactly one `Error` message and nothing after it; and no
run of any failure shape ever produces more than one `Error` entry. -/
theorem c2_failure_buffer_shape (b : RunBehavior) (c : Nat) (clock : Nat → Nat)
    (e : Thrown) (he : b.thrown = some e) (hs : e ≠ Thrown.other) :
    (∃ m : Message, m.type = MessageType.Error ∧
        emittedMessages b c clock = printMessages b.prints c clock ++ [m]) ∧
    (printMessages b.prints c clock).length = b.prints.length ∧
    (printMessages b.prints c clock).map (fun m => (m.type, m.text))
      = b.prints.map (fun s => (MessageType.Print, some s)) ∧
    ∀ b2 : RunBehavior, errorCount (emittedMessages b2 c clock) ≤ 1 := by
  refine ⟨?_, printMessages_length b.prints c clock,
    printMessages_map_kind_text b.prints c clock,
    fun b2 => errorCount_emittedMessages_le_one b2 c clock⟩
  rw [emittedMessages_some b e c clock he]
  cases e with
  | errorObj m => exact ⟨_, rfl, rfl⟩
  | str s => exact ⟨_, rfl, rfl⟩
  | other => exact absurd rfl hs

/-- Witness for the amended claim C2 at a concrete run: one print, then a
bare-string failure. -/
theorem c2_witness :
    (∃ m : Message, m.type = MessageType.Error ∧
        emittedMessages ⟨["a"], some (Thrown.str "boom")⟩ 0 (fun t => t)
          = printMessages ["a"] 0 (fun t => t) ++ [m]) ∧
    (printMessages ["a"] 0 (fun t => t)).length = (["a"] : List String).length ∧
    (printMessages ["a"] 0 (fun t => t)).map (fun m => (m.type, m.text))
      = (["a"] : List String).map (fun s => (MessageType.Print, some s)) ∧
    ∀ b2 : RunBehavior, errorCount (emittedMessages b2 0 (fun t => t)) ≤ 1 :=
  c2_failure_buffer_shape ⟨["a"], some (Thrown.str "boom")⟩ 0 (fun t => t)
    (Thrown.str "boom") rfl (by simp)

/-- Claim C3: a run in which the runtime raises no failure produces a buffer
with zero `Error` messages, consisting of one `Print` message per print
callback invocation, in call order, carrying the printed texts. -/
theorem c3_success_only_prints (b : RunBehavior) (c : Nat) (clock : Nat → Nat)
    (h : b.thrown = none) :
    errorCount (emittedMessages b c clock) = 0 ∧
    (emittedMessages b c clock).length = b.prints.length ∧
    (emittedMessages b c clock).map (fun m => (m.type, m.text))
      = b.prints.map (fun s => (MessageType.Print, some s)) := by
  rw [emittedMessages_none b c clock h]
  exact ⟨errorCount_printMessages b.prints c clock,
    printMessages_length b.prints c clock,
    printMessages_map_kind_text b.prints c clock⟩

/-- Witness for claim C3 at a concrete failure-free run with two prints. -/
theorem c3_witness :
    errorCount (emittedMessages ⟨["x", "y"], none⟩ 0 (fun t => t)) = 0 ∧
    (emittedMessages ⟨["x", "y"], none⟩ 0 (fun t => t)).length
      = (["x", "y"] : List String).length ∧
    (emittedMessages ⟨["x", "y"], none⟩ 0 (fun t => t)).map (fun m => (m.type, m.text))
      = (["x", "y"] : List String).map (fun s => (MessageType.Print, some s)) :=
  c3_success_only_prints ⟨["x", "y"], none⟩ 0 (fun t => t) rfl

/-- Claim C4: the session log is append-only — `runCode` replaces the log by
the old log followed by the run's whole buffer in one `setMessages` call, and
every user interaction leaves the old log as an unchanged prefix (the other
interactions append nothing). -/
theorem c4_log_append_only (examples : List Example) (runtime : String → RunBehavior)
    (clock : Nat → Nat) (s : PlaygroundState) :
    (runCode runtime clock s).messages
      = s.messages ++ emittedMessages (runtime s.code) s.nextId clock ∧
    ∀ ev : Event, ∃ batch : List Message,
      (step examples runtime clock s ev).messages = s.messages ++ batch := by
  refine ⟨rfl, fun ev => ?_⟩
  cases ev with
  | runClick => exact ⟨_, rfl⟩
  | selectEx name => exact ⟨[], (List.append_nil _).symm⟩
  | edit newCode => exact ⟨[], (List.append_nil _).symm⟩

/-- Claim C5: over a whole session — the initial state followed by any
sequence of runs, example selections and edits — the ids of the messages in
the session log are pairwise distinct. -/
theorem c5_ids_pairwise_distinct (examples : List Example)
    (runtime : String → RunBehavior) (clock : Nat → Nat) (events : List Event)
    (hne : examples ≠ []) :
    (logIds (applySession examples runtime clock hne events)).Nodup := by
  have h0 : IdInvariant (initialState examples hne) := by
    constructor
    · simp [logIds, initialState]
    · intro i hi
      simp [logIds, initialState] at hi
  exact (foldl_id_invariant examples runtime clock events (initialState examples hne) h0).1

/-- Witness for claim C5: a concrete session with two runs, each emitting one
print and then a bare-string failure. -/
theorem c5_witness :
    (logIds (applySession [⟨"Hello", "print 1;"⟩]
        (fun _ => ⟨["out"], some (Thrown.str "boom")⟩) (fun t => t)
        (List.cons_ne_nil _ _) [Event.runClick, Event.runClick])).Nodup :=
  c5_ids_pairwise_distinct [⟨"Hello", "print 1;"⟩]
    (fun _ => ⟨["out"], some (Thrown.str "boom")⟩) (fun t => t)
    [Event.runClick, Event.runClick] (List.cons_ne_nil _ _)

/-- Claim C6: `runCode` never writes the `code` state — the source buffer
after a run equals the source buffer before it, whether or not the run
failed. -/
theorem c6_run_preserves_source (runtime : String → RunBehavior) (clock : Nat → Nat)
    (s : PlaygroundState) : (runCode runtime clock s).code = s.code :=
  rfl

/-- Claim C7: when the thrown value is an `Error` instance the single `Error`
message's text is exactly its `.message` field, and when it is a bare string
the text is exactly that string (`thrownText` returns precisely those two
texts); the buffer is the prints followed by that one message. -/
theorem c7_error_text_verbatim (b : RunBehavior) (c : Nat) (clock : Nat → Nat)
    (e : Thrown) (t : String) (he : b.thrown = some e) (ht : thrownText e = some t) :
    emittedMessages b c clock
      = printMessages b.prints c clock ++
          [{ id := c + b.prints.length, type := MessageType.Error, text := some t,
             occurredAt := clock (c + b.prints.length) }] := by
  rw [emittedMessages_some b e c clock he]
  cases e with
  | errorObj m =>
      simp only [thrownText, Option.some.injEq] at ht
      subst ht; rfl
  | str s =>
      simp only [thrownText, Option.some.injEq] at ht
      subst ht; rfl
  | other => simp [thrownText] at ht

/-- Witness for claim C7 at a concrete run: one print, then a structured
failure whose message field is `"Undefined variable x."`. -/
theorem c7_witness :
    emittedMessages ⟨["a"], some (Thrown.errorObj "Undefined variable x.")⟩ 0 (fun t => t)
      = printMessages ["a"] 0 (fun t => t) ++
          [{ id := 1, type := MessageType.Error, text := some "Undefined variable x.",
             occurredAt := 1 }] :=
  c7_error_text_verbatim ⟨["a"], some (Thrown.errorObj "Undefined variable x.")⟩ 0
    (fun t => t) (Thrown.errorObj "Undefined variable x.") "Undefined variable x." rfl rfl

/-- Claim C8: selecting a catalog entry by name replaces the source buffer
with that entry's code (the first entry of that name found) while leaving the
session log untouched, and the initial source buffer is the first catalog
entry's code. -/
theorem c8_select_example (examples : List Example) (name : String) (ex : Example)
    (s : PlaygroundState) (e0 : Example) (rest : List Example)
    (hne : examples ≠ []) (hcat : examples = e0 :: rest)
    (hfind : examples.find? (fun x => x.name == name) = some ex) :
    (selectExample examples name s).code = ex.code ∧
    (selectExample examples name s).messages = s.messages ∧
    (initialState examples hne).code = e0.code := by
  refine ⟨?_, rfl, ?_⟩
  · simp [selectExample, hfind]
  · subst hcat; rfl

/-- Witness for claim C8 on a concrete two-entry catalog, selecting the
second entry from a state holding unsaved edits and a non-empty log. -/
theorem c8_witness :
    (selectExample [⟨"Hello", "print 1;"⟩, ⟨"Fibonacci", "fib code"⟩] "Fibonacci"
        ⟨[mkPrint 0 (fun t => t) "old"], "unsaved edits", 1⟩).code = "fib code" ∧
    (selectExample [⟨"Hello", "print 1;"⟩, ⟨"Fibonacci", "fib code"⟩] "Fibonacci"
        ⟨[mkPrint 0 (fun t => t) "old"], "unsaved edits", 1⟩).messages
      = [mkPrint 0 (fun t => t) "old"] ∧
    (initialState [⟨"Hello", "print 1;"⟩, ⟨"Fibonacci", "fib code"⟩]
        (List.cons_ne_nil _ _)).code = "print 1;" :=
  c8_select_example [⟨"Hello", "print 1;"⟩, ⟨"Fibonacci", "fib code"⟩] "Fibonacci"
    ⟨"Fibonacci", "fib code"⟩ ⟨[mkPrint 0 (fun t => t) "old"], "unsaved edits", 1⟩
    ⟨"Hello", "print 1;"⟩ [⟨"Fibonacci", "fib code"⟩]
    (List.cons_ne_nil _ _) rfl (by decide)

/-- Claim C9: when the editor's change callback delivers `undefined`
(`none`), the handler `(newCode) => setCode(newCode ?? "")` sets the source
buffer to the empty string. -/
theorem c9_undefined_change_sets_empty (s : PlaygroundState) :
    (onEditorChange none s).code = "" :=
  rfl

/-- Claim C10: every message `runCode` puts in a run's buffer (and hence
appends to the session log) has a present `text` field, even though the
`Message` contract declares `text` optional. -/
theorem c10_text_always_present (b : RunBehavior) (c : Nat) (clock : Nat → Nat)
    (m : Message) (hm : m ∈ emittedMessages b c clock) : m.text.isSome = true := by
  cases hb : b.thrown with
  | none =>
      rw [emittedMessages_none b c clock hb] at hm
      exact text_isSome_of_mem_printMessages b.prints c clock m hm
  | some e =>
      rw [emittedMessages_some b e c clock hb] at hm
      rcases List.mem_append.mp hm with h | h
      · exact text_isSome_of_mem_printMessages b.prints c clock m h
      · exact text_isSome_of_mem_catchMessages e (c + b.prints.length) clock m h

/-- Witness for claim C10 on the `Error` message of a concrete failing run. -/
theorem c10_witness :
    (Message.mk 0 MessageType.Error (some "boom") 0).text.isSome = true :=
  c10_text_always_present ⟨[], some (Thrown.str "boom")⟩ 0 (fun t => t)
    (Message.mk 0 MessageType.Error (some "boom") 0) (by decide)

end Lox
